import Mathlib

/-!
# Verification of the agent-log event store and debounce/flush engine

Shallow embedding of the `agent-log` repository:
* `src/store/sqlite_event_log_store.js` — the durable relational backend
  (tables `agent_logs` and `approval_events`, idempotent insert, ordered and
  filtered reads). SQLite tables are modelled as Lean lists of row structures;
  `INSERT OR IGNORE` on the `event_id` primary key and on the unique
  idempotency index `uniq_approval_events_idempotent` is modelled by an
  explicit conflict check; `ORDER BY` is modelled by a stable insertion sort
  on the same key tuple (the orders used have distinct keys on well-formed
  stores, so any sorted permutation is uniquely determined).
* `src/server.js` — the debounce/batch flush engine for the debug mirror
  (`debounceBuffer`, `debounceTimer`, `flushLogBuffer`, the `/api/log`
  handler) and the calendar partitioning utility `getPacificMonthYear`.

Platform primitives the code calls are modelled semantically:
* `JSON.stringify` / `JSON.parse`: a payload column value either parses to a
  structured document or is malformed (`PayloadText`); `JSON.stringify` of a
  JSON-representable value produces a string that `JSON.parse` maps back to
  that value.
* `Intl.DateTimeFormat` with `timeZone: America/Los_Angeles`: implemented
  from the proleptic Gregorian calendar plus the post-2007 United States
  daylight-saving rules for the Pacific time zone.
-/

namespace AgentLog

/-- A JSON-representable structured document (the JS value domain the store
round-trips through `JSON.stringify` / `JSON.parse`). -/
inductive Json where
  | null : Json
  | bool (b : Bool) : Json
  | num (n : Int) : Json
  | str (s : String) : Json
  | arr (elems : List Json) : Json
  | obj (fields : List (String × Json)) : Json

/-- Content of the `payload_json` TEXT column, modelled semantically: a stored
string either parses (under `JSON.parse`) to a structured document, or is
malformed and makes `JSON.parse` throw. -/
inductive PayloadText where
  | parsesTo (j : Json)
  | malformed (s : String)

/-- Model of `JSON.parse` applied to a stored payload string inside a
`try { ... } catch` — malformed text yields no document instead of raising. -/
def parsePayload : PayloadText → Option Json
  | .parsesTo j => some j
  | .malformed _ => none

/-- The resolved payload source of an incoming approval event
(`event.payload_json ?? event.payload ?? event` in `insertApprovalEvent`):
either a string (stored verbatim) or a structured document (stored as
`JSON.stringify` of it). -/
inductive PayloadSource where
  | str (t : PayloadText)
  | doc (j : Json)

/-- `typeof payloadSource === 'string' ? payloadSource : JSON.stringify(payloadSource)`:
a string payload is stored verbatim; a structured one is serialized, and
`JSON.parse` recovers exactly the serialized document (ECMA-262 guarantee for
JSON-representable values). -/
def serializePayload : PayloadSource → PayloadText
  | .str t => t
  | .doc j => .parsesTo j

/-- Last binding for a key in a JSON object (`JSON.parse` keeps the last of
duplicate keys; plain JS objects have unique keys). -/
def lookupField (fields : List (String × Json)) (key : String) : Option Json :=
  List.lookup key fields.reverse

/-- Model of `payload.sim_run_id || null` for the parsed payload: a truthy
string field is kept, a truthy number is stored through SQLite TEXT affinity,
anything falsy or missing becomes null. -/
def simRunField : Json → Option String
  | .obj fields =>
      match lookupField fields "sim_run_id" with
      | some (.str s) => if s == "" then none else some s
      | some (.num n) => if n == 0 then none else some (toString n)
      | _ => none
  | _ => none

/-- `insertApprovalEvent`'s sim_run_id enrichment: parse the payload source
if it is a string (swallowing parse errors), then extract `sim_run_id`. -/
def extractSimRunId : PayloadSource → Option String
  | .str t =>
      match parsePayload t with
      | some j => simRunField j
      | none => none
  | .doc j => simRunField j

/-- One row of the `agent_logs` table. `id` is the AUTOINCREMENT surrogate
key, i.e. the insertion sequence number. -/
structure LogRow where
  id : Nat
  instance_id : String
  service : String
  level : String
  message : String
  username : String
  event_time : String
  created_at : String
  org_id : String

/-- One row of the `approval_events` table. `event_id` is the primary key;
`(org_id, agent_name, decision_point_id, event_type)` carries the unique
index `uniq_approval_events_idempotent`. -/
structure EventRow where
  event_id : String
  org_id : String
  agent_name : String
  decision_point_id : String
  event_type : String
  created_at : String
  sim_run_id : Option String
  payload_json : PayloadText

/-- The SQLite database state: both tables plus the next AUTOINCREMENT id
for `agent_logs`. -/
structure Store where
  nextId : Nat
  logs : List LogRow
  events : List EventRow

/-- A freshly initialized database (`init` creates empty tables;
AUTOINCREMENT ids start at 1). -/
def emptyStore : Store := { nextId := 1, logs := [], events := [] }

/-- The validated log-entry fields handed to `appendLogEntry`. -/
structure LogEntryInput where
  instance_id : String
  service : String
  level : String
  message : String
  username : String
  event_time : String
  created_at : String
  org_id : Option String

/-- The `agent_logs` row created for an entry (`org_id || ''` defaults the
tenant column to the empty string). -/
def logRowOf (e : LogEntryInput) (id : Nat) : LogRow :=
  { id := id
    instance_id := e.instance_id
    service := e.service
    level := e.level
    message := e.message
    username := e.username
    event_time := e.event_time
    created_at := e.created_at
    org_id := e.org_id.getD "" }

/-- `appendLogEntry`: durable single-row INSERT into `agent_logs`, no
deduplication; the row receives the next AUTOINCREMENT id. -/
def appendLogEntry (e : LogEntryInput) (s : Store) : Store :=
  { s with nextId := s.nextId + 1, logs := s.logs ++ [logRowOf e s.nextId] }

/-- The validated approval-event fields handed to `insertApprovalEvent`,
with the payload source already resolved. -/
structure ApprovalEventInput where
  event_id : String
  org_id : String
  agent_name : String
  decision_point_id : String
  event_type : String
  created_at : String
  payload : PayloadSource

/-- Whether a stored row matches an incoming event on the idempotency tuple
`(org_id, agent_name, decision_point_id, event_type)`. -/
def idemKeyEq (r : EventRow) (e : ApprovalEventInput) : Bool :=
  r.org_id == e.org_id && r.agent_name == e.agent_name &&
    r.decision_point_id == e.decision_point_id && r.event_type == e.event_type

/-- `INSERT OR IGNORE` conflict test for `approval_events`: a conflict on the
`event_id` PRIMARY KEY or on the unique idempotency index both cause the
single statement to be ignored. -/
def insertConflict (s : Store) (e : ApprovalEventInput) : Bool :=
  s.events.any fun r => r.event_id == e.event_id || idemKeyEq r e

/-- The `approval_events` row built by `insertApprovalEvent`: payload
serialized, `sim_run_id` extracted from the payload (null on parse failure). -/
def eventRowOf (e : ApprovalEventInput) : EventRow :=
  { event_id := e.event_id
    org_id := e.org_id
    agent_name := e.agent_name
    decision_point_id := e.decision_point_id
    event_type := e.event_type
    created_at := e.created_at
    sim_run_id := extractSimRunId e.payload
    payload_json := serializePayload e.payload }

/-- `insertApprovalEvent`: one atomic `INSERT OR IGNORE`; returns the new
store and `inserted = Boolean(result.changes)`. It never raises on a
duplicate (the model is a total function). -/
def insertApprovalEvent (e : ApprovalEventInput) (s : Store) : Store × Bool :=
  if insertConflict s e then (s, false)
  else ({ s with events := s.events ++ [eventRowOf e] }, true)

/-- Lexicographic `ORDER BY f ASC, g ASC` as a relation on rows. -/
def lexOrd {α : Type} {γ : Type} {β : Type} [LinearOrder γ] [LinearOrder β]
    (f : α → γ) (g : α → β) (a b : α) : Prop :=
  f a < f b ∨ (f a = f b ∧ g a ≤ g b)

instance {α γ β : Type} [LinearOrder γ] [LinearOrder β]
    (f : α → γ) (g : α → β) : DecidableRel (lexOrd f g) := fun a b => by
  unfold lexOrd; infer_instance

instance {α γ β : Type} [LinearOrder γ] [LinearOrder β]
    (f : α → γ) (g : α → β) : IsTotal α (lexOrd f g) := by
  constructor
  intro a b
  rcases lt_trichotomy (f a) (f b) with h | h | h
  · exact Or.inl (Or.inl h)
  · rcases le_total (g a) (g b) with h2 | h2
    · exact Or.inl (Or.inr ⟨h, h2⟩)
    · exact Or.inr (Or.inr ⟨h.symm, h2⟩)
  · exact Or.inr (Or.inl h)

instance {α γ β : Type} [LinearOrder γ] [LinearOrder β]
    (f : α → γ) (g : α → β) : IsTrans α (lexOrd f g) := by
  constructor
  intro a b c hab hbc
  rcases hab with hab | ⟨hab, hab2⟩
  · rcases hbc with hbc | ⟨hbc, _⟩
    · exact Or.inl (hab.trans hbc)
    · exact Or.inl (hbc ▸ hab)
  · rcases hbc with hbc | ⟨hbc, hbc2⟩
    · exact Or.inl (hab ▸ hbc)
    · exact Or.inr ⟨hab.trans hbc, hab2.trans hbc2⟩

/-- `ORDER BY f ASC` on a single key. -/
def keyOrd {α : Type} {γ : Type} [LinearOrder γ] (f : α → γ) (a b : α) : Prop :=
  f a ≤ f b

instance {α γ : Type} [LinearOrder γ] (f : α → γ) :
    DecidableRel (keyOrd f) := fun a b => by
  unfold keyOrd; infer_instance

instance {α γ : Type} [LinearOrder γ] (f : α → γ) : IsTotal α (keyOrd f) :=
  ⟨fun a b => le_total (f a) (f b)⟩

instance {α γ : Type} [LinearOrder γ] (f : α → γ) : IsTrans α (keyOrd f) :=
  ⟨fun _ _ _ hab hbc => le_trans hab hbc⟩

/-- `ORDER BY event_time ASC, id ASC` on `agent_logs` rows. -/
abbrev logOrd : LogRow → LogRow → Prop :=
  lexOrd LogRow.event_time LogRow.id

/-- `ORDER BY created_at ASC, event_id ASC` on `approval_events` rows. -/
abbrev evOrd : EventRow → EventRow → Prop :=
  lexOrd EventRow.created_at EventRow.event_id

/-- `ORDER BY created_at ASC` on `approval_events` rows. -/
abbrev createdOrd : EventRow → EventRow → Prop :=
  keyOrd EventRow.created_at

/-- `listLogEntries(instanceId)`:
`SELECT ... FROM agent_logs WHERE instance_id = ? ORDER BY event_time ASC, id ASC`
(the SQL projects `event_time, message, username`; the model keeps whole rows). -/
def listLogEntries (instanceId : String) (s : Store) : List LogRow :=
  List.insertionSort logOrd (s.logs.filter fun r => r.instance_id == instanceId)

/-- WHERE clause of `getApprovalRequestByDecisionPoint`. -/
def requestMatches (org agent dp : String) (r : EventRow) : Bool :=
  r.org_id == org && r.agent_name == agent && r.decision_point_id == dp &&
    r.event_type == "approval_request"

/-- `getApprovalRequestByDecisionPoint(org, agent, decisionPointId)`:
`SELECT payload_json ... ORDER BY created_at ASC LIMIT 1`, then `JSON.parse`
inside try/catch — no row or a malformed payload yields null. -/
def getApprovalRequestByDecisionPoint (org agent dp : String) (s : Store) :
    Option Json :=
  match (List.insertionSort createdOrd
      (s.events.filter (requestMatches org agent dp))).head? with
  | none => none
  | some r => parsePayload r.payload_json

/-- The filter record handed to `queryApprovalEvents`. Optional fields model
JS truthiness: an absent field or an empty string leaves its SQL condition
out. `limit`/`offset` are present only when the caller passes numbers
(modelled for the non-negative range the pagination contract covers). -/
structure ApprovalQuery where
  orgId : String
  agentName : String
  eventType : Option String
  simRunId : Option String
  start : Option String
  endAt : Option String
  limit : Option Nat
  offset : Option Nat

/-- One optional SQL condition: applied only when the filter value is truthy
(present and non-empty). -/
def optCond (v : Option String) (p : String → Bool) : Bool :=
  match v with
  | some s => if s == "" then true else p s
  | none => true

/-- The composed WHERE clause of `queryApprovalEvents`:
`org_id = ? AND agent_name = ?` plus the optional `sim_run_id`, `created_at
>= start`, `created_at <= end` and `event_type` conditions. -/
def matchesQuery (q : ApprovalQuery) (r : EventRow) : Bool :=
  r.org_id == q.orgId && r.agent_name == q.agentName &&
    optCond q.simRunId (fun v => r.sim_run_id == some v) &&
    optCond q.start (fun v => decide (v ≤ r.created_at)) &&
    optCond q.endAt (fun v => decide (r.created_at ≤ v)) &&
    optCond q.eventType (fun v => r.event_type == v)

/-- `queryApprovalEvents(filter)`: filter, `ORDER BY created_at ASC,
event_id ASC`, then `LIMIT ?` (with `OFFSET ?` only when the offset is a
positive number, mirroring `offset > 0` in the source). -/
def queryApprovalEvents (q : ApprovalQuery) (s : Store) : List EventRow :=
  let sorted := List.insertionSort evOrd (s.events.filter (matchesQuery q))
  match q.limit with
  | none => sorted
  | some n =>
    match q.offset with
    | some m => if 0 < m then (sorted.drop m).take n else sorted.take n
    | none => sorted.take n

/-- The unpaginated result of the same filter (no LIMIT/OFFSET supplied). -/
def queryApprovalEventsAll (q : ApprovalQuery) (s : Store) : List EventRow :=
  queryApprovalEvents { q with limit := none, offset := none } s

/-! ## Debounce/batch flush engine (`src/server.js`)

The engine's shared mutable state (`debounceBuffer`, `debounceTimer`) and
its effects on the debug-mirror files are modelled explicitly; the outcomes
of the fallible lock-acquisition/file-write sequence inside `flushLogBuffer`
are supplied by the environment as an `Option FlushErr`. An event-loop run
is a sequence of explicit operations (request arrivals, timer firings), so
the placement of timer-expiry operations encodes when the armed timer fires. -/

def DEBOUNCE_DELAY : Nat := 1000
def MAX_BUFFER_SIZE : Nat := 5

/-- How the lock/write sequence of a flush can fail. -/
inductive FlushErr where
  | lockFailed
  | writeFailed
deriving DecidableEq

/-- The per-process debounce state plus the observable effects of flushes:
`buffer` is `debounceBuffer` (pairs `{logFilePath, line}` in arrival order),
`deadline` the pending `debounceTimer` deadline in ms, `writes` the
successful file appends `(path, text)` in order, and `errorsLogged` the flush
errors written to the console by the catch block. -/
structure DebugMirrorState where
  buffer : List (String × String)
  deadline : Option Nat
  writes : List (String × String)
  errorsLogged : List FlushErr

/-- `flushLogBuffer`: no-op when the debug mirror is disabled or the buffer
is empty; otherwise it snapshots the buffer, targets `entries[0].logFilePath`,
concatenates the lines, clears the buffer and the timer, and then attempts
the lock/append sequence — a failure is caught and logged, never rethrown. -/
def flushLogBuffer (debug : Bool) (io : Option FlushErr)
    (s : DebugMirrorState) : DebugMirrorState :=
  if !debug then s
  else
    match s.buffer with
    | [] => s
    | e :: es =>
      let path := e.1
      let text := String.join ((e :: es).map Prod.snd)
      let s1 := { s with buffer := [], deadline := none }
      match io with
      | none => { s1 with writes := s1.writes ++ [(path, text)] }
      | some err => { s1 with errorsLogged := s1.errorsLogged ++ [err] }

/-- The debug-mirror section of the `/api/log` handler: push the rendered
line, flush immediately once the buffer reaches `MAX_BUFFER_SIZE`, otherwise
clear any pending timer and arm a fresh one with the full delay from the
arrival instant `t`. -/
def bufferDebugLine (t : Nat) (io : Option FlushErr) (entry : String × String)
    (s : DebugMirrorState) : DebugMirrorState :=
  let s := { s with buffer := s.buffer ++ [entry] }
  if MAX_BUFFER_SIZE ≤ s.buffer.length then flushLogBuffer true io s
  else { s with deadline := some (t + DEBOUNCE_DELAY) }

/-- The `setTimeout(flushLogBuffer, DEBOUNCE_DELAY)` callback is
`flushLogBuffer` itself: firing the armed timer runs a (timer-triggered,
asynchronous) flush. -/
def fireTimer (io : Option FlushErr) (s : DebugMirrorState) : DebugMirrorState :=
  flushLogBuffer true io s

/-- The HTTP response of the `/api/log` handler, as far as the core is
concerned: success, or the 500 sent when the canonical SQLite write fails. -/
inductive LogResponse where
  | ok
  | serverError (code : String)
deriving DecidableEq

/-- The `/api/log` handler after validation: append the entry durably to
SQLite (a failure there is reported as 500 `log_write_failed`), then, when
the debug mirror is enabled, buffer the rendered line — awaiting a
threshold-triggered flush whose lock/write outcome is `io` — and respond
`{ok: true}`. The rendered line and partition path are taken as arguments
(they are computed from the entry and `getPacificMonthYear`). -/
def handleLogPost (debug : Bool) (t : Nat) (storeOk : Bool)
    (io : Option FlushErr) (entry : LogEntryInput) (logFilePath line : String)
    (st : Store) (ms : DebugMirrorState) :
    Store × DebugMirrorState × LogResponse :=
  if !storeOk then (st, ms, .serverError "log_write_failed")
  else
    let st := appendLogEntry entry st
    let ms := if debug then bufferDebugLine t io (logFilePath, line) ms else ms
    (st, ms, .ok)

/-! ## Calendar partitioning utility (`getPacificMonthYear`)

Model of `Intl.DateTimeFormat('en-US', { timeZone: 'America/Los_Angeles',
month: 'short', year: 'numeric' })` followed by the source's lowercasing:
civil-calendar arithmetic (Howard Hinnant's algorithms) plus the post-2007
United States daylight-saving rules (DST from the second Sunday of March at
02:00 standard time to the first Sunday of November at 02:00 daylight time;
offsets UTC-8 standard, UTC-7 daylight). Instants are seconds since the Unix
epoch. -/

/-- Civil date `(year, month, day)` of an epoch day number (days since
1970-01-01, proleptic Gregorian calendar). -/
def civilFromDays (z0 : Nat) : Nat × Nat × Nat :=
  let z := z0 + 719468
  let era := z / 146097
  let doe := z % 146097
  let yoe := (doe - doe / 1460 + doe / 36524 - doe / 146096) / 365
  let y := yoe + era * 400
  let doy := doe - (365 * yoe + yoe / 4 - yoe / 100)
  let mp := (5 * doy + 2) / 153
  let d := doy - (153 * mp + 2) / 5 + 1
  let m := if mp < 10 then mp + 3 else mp - 9
  (if m ≤ 2 then y + 1 else y, m, d)

/-- Epoch day number of a civil date (inverse of `civilFromDays` for dates
from 1970 on). -/
def daysFromCivil (y m d : Nat) : Nat :=
  let y1 := if m ≤ 2 then y - 1 else y
  let era := y1 / 400
  let yoe := y1 % 400
  let doy := (153 * (if 2 < m then m - 3 else m + 9) + 2) / 5 + d - 1
  let doe := yoe * 365 + yoe / 4 - yoe / 100 + doy
  era * 146097 + doe - 719468

/-- Day of week of an epoch day number, with Sunday = 0 (1970-01-01 was a
Thursday). -/
def weekday (days : Nat) : Nat := (days + 4) % 7

/-- Day of month of the second Sunday of March of a year. -/
def secondSundayOfMarch (y : Nat) : Nat :=
  1 + (7 - weekday (daysFromCivil y 3 1)) % 7 + 7

/-- Day of month of the first Sunday of November of a year. -/
def firstSundayOfNovember (y : Nat) : Nat :=
  1 + (7 - weekday (daysFromCivil y 11 1)) % 7

/-- UTC instant at which Pacific daylight saving starts in a year
(02:00 PST = 10:00 UTC on the second Sunday of March). -/
def pacificDstStart (y : Nat) : Nat :=
  daysFromCivil y 3 (secondSundayOfMarch y) * 86400 + 10 * 3600

/-- UTC instant at which Pacific daylight saving ends in a year
(02:00 PDT = 09:00 UTC on the first Sunday of November). -/
def pacificDstEnd (y : Nat) : Nat :=
  daysFromCivil y 11 (firstSundayOfNovember y) * 86400 + 9 * 3600

/-- Whether an instant falls in Pacific daylight-saving time. -/
def isPacificDST (t : Nat) : Bool :=
  let y := (civilFromDays (t / 86400)).1
  decide (pacificDstStart y ≤ t) && decide (t < pacificDstEnd y)

/-- Seconds the Pacific wall clock is behind UTC at an instant. -/
def pacificOffsetSecs (t : Nat) : Nat :=
  if isPacificDST t then 25200 else 28800

/-- Lowercase three-letter month abbreviation, as the source produces by
lowercasing the `en-US` short month name. -/
def monthShortName : Nat → String
  | 1 => "jan" | 2 => "feb" | 3 => "mar" | 4 => "apr"
  | 5 => "may" | 6 => "jun" | 7 => "jul" | 8 => "aug"
  | 9 => "sep" | 10 => "oct" | 11 => "nov" | 12 => "dec"
  | _ => ""

/-- `getPacificMonthYear(date)`: the `(month, year)` wall-clock bucket of a
UTC instant in `America/Los_Angeles` — convert to local wall-clock seconds
using the zone offset in force at the instant, then read the civil month and
year. -/
def getPacificMonthYear (t : Nat) : String × String :=
  let wall := t - pacificOffsetSecs t
  let c := civilFromDays (wall / 86400)
  (monthShortName c.2.1, toString c.1)

/-- Epoch seconds of a UTC civil date-time (helper for stating instants). -/
def epochSecs (y m d hh mm ss : Nat) : Nat :=
  daysFromCivil y m d * 86400 + hh * 3600 + mm * 60 + ss

/-! ## Theorems -/

/-- C9. The calendar partitioning converts a UTC instant to the wall-clock
month/year bucket of `America/Los_Angeles`, correctly bucketing instants
near month boundaries: 07:10 UTC on 2026-01-01 (zone at UTC-8) is bucketed
into December 2025, while 08:10 UTC the same day is January 2026; during
daylight saving (zone at UTC-7), 06:10 UTC on 2026-07-01 is June, 07:30 UTC
is July; around the DST end on 2026-11-01 (09:00 UTC), 06:30 UTC is still
October while 08:30 UTC is November; a mid-month instant stays in its own
month. -/
theorem getPacificMonthYear_month_boundaries :
    getPacificMonthYear (epochSecs 2026 1 1 7 10 0) = ("dec", "2025")
    ∧ getPacificMonthYear (epochSecs 2026 1 1 8 10 0) = ("jan", "2026")
    ∧ getPacificMonthYear (epochSecs 2026 7 1 6 10 0) = ("jun", "2026")
    ∧ getPacificMonthYear (epochSecs 2026 7 1 7 30 0) = ("jul", "2026")
    ∧ getPacificMonthYear (epochSecs 2026 11 1 6 30 0) = ("oct", "2026")
    ∧ getPacificMonthYear (epochSecs 2026 11 1 8 30 0) = ("nov", "2026")
    ∧ getPacificMonthYear (epochSecs 2026 1 15 12 0 0) = ("jan", "2026") := by
  decide

/-- Helper: a conflicting `INSERT OR IGNORE` leaves the store unchanged and
reports no insertion. -/
theorem insertApprovalEvent_of_conflict (s : Store) (e : ApprovalEventInput)
    (h : insertConflict s e = true) : insertApprovalEvent e s = (s, false) := by
  unfold insertApprovalEvent
  rw [h]
  simp

/-- Helper: a conflict-free `INSERT OR IGNORE` appends the row and reports
insertion. -/
theorem insertApprovalEvent_of_fresh (s : Store) (e : ApprovalEventInput)
    (h : insertConflict s e = false) :
    insertApprovalEvent e s
      = ({ s with events := s.events ++ [eventRowOf e] }, true) := by
  unfold insertApprovalEvent
  rw [h]
  simp

/-- C10. `insertApprovalEvent` treats every uniqueness conflict as a silent
no-op: when some stored row already has the incoming event's `event_id`, the
event is not inserted and is reported as `inserted = false` without raising,
even when its idempotency tuple differs from every stored row — the single
`INSERT OR IGNORE` also ignores conflicts on the `event_id` primary key. -/
theorem insertApprovalEvent_ignores_event_id_conflict
    (s : Store) (e : ApprovalEventInput)
    (hid : ∃ r ∈ s.events, r.event_id = e.event_id)
    (_hkey : ∀ r ∈ s.events, idemKeyEq r e = false) :
    insertApprovalEvent e s = (s, false) := by
  obtain ⟨r, hr, hrid⟩ := hid
  have hc : insertConflict s e = true := by
    unfold insertConflict
    rw [List.any_eq_true]
    exact ⟨r, hr, by rw [Bool.or_eq_true, beq_iff_eq]; exact Or.inl hrid⟩
  exact insertApprovalEvent_of_conflict s e hc

/-- Witness for C10: a store holding one event; a second event with the same
`event_id` but a different idempotency tuple is ignored and reported as not
inserted. -/
theorem insertApprovalEvent_ignores_event_id_conflict_witness :
    insertApprovalEvent
      { event_id := "ev1", org_id := "O2", agent_name := "A2",
        decision_point_id := "D2", event_type := "approval_outcome",
        created_at := "2026-01-13T00:00:00Z", payload := .doc .null }
      { emptyStore with events := [
          { event_id := "ev1", org_id := "O1", agent_name := "A1",
            decision_point_id := "D1", event_type := "approval_request",
            created_at := "2026-01-12T22:10:15Z",
            sim_run_id := none, payload_json := .parsesTo .null }] }
      = ({ emptyStore with events := [
          { event_id := "ev1", org_id := "O1", agent_name := "A1",
            decision_point_id := "D1", event_type := "approval_request",
            created_at := "2026-01-12T22:10:15Z",
            sim_run_id := none, payload_json := .parsesTo .null }] }, false) := by
  apply insertApprovalEvent_ignores_event_id_conflict
  · exact ⟨_, List.mem_singleton.mpr rfl, rfl⟩
  · intro r hr
    rw [List.mem_singleton] at hr
    subst hr
    rfl

/-- C1. Inserting the same idempotency key `(org_id, agent_name,
decision_point_id, event_type)` twice — even with different payloads — into
a store that does not already conflict with the first event leaves exactly
one stored row for that key, whose payload is the first call's payload; the
first call reports `inserted = true`, the second reports `inserted = false`
and leaves the store unchanged (and, the model being a total function, the
second call never raises). -/
theorem insertApprovalEvent_idempotent
    (s : Store) (e1 e2 : ApprovalEventInput)
    (hfresh : insertConflict s e1 = false)
    (h1 : e2.org_id = e1.org_id) (h2 : e2.agent_name = e1.agent_name)
    (h3 : e2.decision_point_id = e1.decision_point_id)
    (h4 : e2.event_type = e1.event_type) :
    (insertApprovalEvent e1 s).2 = true
    ∧ (insertApprovalEvent e2 (insertApprovalEvent e1 s).1).2 = false
    ∧ (insertApprovalEvent e2 (insertApprovalEvent e1 s).1).1
        = (insertApprovalEvent e1 s).1
    ∧ (insertApprovalEvent e2 (insertApprovalEvent e1 s).1).1.events.filter
        (fun r => idemKeyEq r e1) = [eventRowOf e1] := by
  have hkeyself : idemKeyEq (eventRowOf e1) e1 = true := by
    simp [idemKeyEq, eventRowOf]
  have hstep1 : insertApprovalEvent e1 s
      = ({ s with events := s.events ++ [eventRowOf e1] }, true) :=
    insertApprovalEvent_of_fresh s e1 hfresh
  have hnokey : ∀ r ∈ s.events, idemKeyEq r e1 = false := by
    intro r hr
    unfold insertConflict at hfresh
    rw [List.any_eq_false] at hfresh
    have := hfresh r hr
    simp only [Bool.or_eq_true, not_or] at this
    exact Bool.eq_false_iff.mpr this.2
  have hkey2 : idemKeyEq (eventRowOf e1) e2 = true := by
    simp [idemKeyEq, eventRowOf, h1, h2, h3, h4]
  have hconf2 : insertConflict (insertApprovalEvent e1 s).1 e2 = true := by
    rw [hstep1]
    unfold insertConflict
    rw [List.any_eq_true]
    exact ⟨eventRowOf e1, by simp, by rw [Bool.or_eq_true]; exact Or.inr hkey2⟩
  have hstep2 : insertApprovalEvent e2 (insertApprovalEvent e1 s).1
      = ((insertApprovalEvent e1 s).1, false) :=
    insertApprovalEvent_of_conflict _ e2 hconf2
  refine ⟨by rw [hstep1], by rw [hstep2], by rw [hstep2], ?_⟩
  rw [hstep2, hstep1]
  simp only [List.filter_append]
  rw [List.filter_eq_nil_iff.mpr (by intro r hr; simp [hnokey r hr])]
  simp [hkeyself]

/-- Witness for C1: inserting `(O1, A1, D1, approval_request)` twice with
different payloads into an empty store keeps exactly the first row; the
first call inserts, the second does not. -/
theorem insertApprovalEvent_idempotent_witness :
    (insertApprovalEvent
        { event_id := "ev1", org_id := "O1", agent_name := "A1",
          decision_point_id := "D1", event_type := "approval_request",
          created_at := "2026-01-12T22:10:15Z",
          payload := .doc (.str "first") } emptyStore).2 = true
    ∧ (insertApprovalEvent
        { event_id := "ev2", org_id := "O1", agent_name := "A1",
          decision_point_id := "D1", event_type := "approval_request",
          created_at := "2026-01-12T22:10:16Z",
          payload := .doc (.str "second") }
        (insertApprovalEvent
          { event_id := "ev1", org_id := "O1", agent_name := "A1",
            decision_point_id := "D1", event_type := "approval_request",
            created_at := "2026-01-12T22:10:15Z",
            payload := .doc (.str "first") } emptyStore).1).2 = false
    ∧ (insertApprovalEvent
        { event_id := "ev2", org_id := "O1", agent_name := "A1",
          decision_point_id := "D1", event_type := "approval_request",
          created_at := "2026-01-12T22:10:16Z",
          payload := .doc (.str "second") }
        (insertApprovalEvent
          { event_id := "ev1", org_id := "O1", agent_name := "A1",
            decision_point_id := "D1", event_type := "approval_request",
            created_at := "2026-01-12T22:10:15Z",
            payload := .doc (.str "first") } emptyStore).1).1
        = (insertApprovalEvent
          { event_id := "ev1", org_id := "O1", agent_name := "A1",
            decision_point_id := "D1", event_type := "approval_request",
            created_at := "2026-01-12T22:10:15Z",
            payload := .doc (.str "first") } emptyStore).1
    ∧ (insertApprovalEvent
        { event_id := "ev2", org_id := "O1", agent_name := "A1",
          decision_point_id := "D1", event_type := "approval_request",
          created_at := "2026-01-12T22:10:16Z",
          payload := .doc (.str "second") }
        (insertApprovalEvent
          { event_id := "ev1", org_id := "O1", agent_name := "A1",
            decision_point_id := "D1", event_type := "approval_request",
            created_at := "2026-01-12T22:10:15Z",
            payload := .doc (.str "first") } emptyStore).1).1.events.filter
        (fun r => idemKeyEq r
          { event_id := "ev1", org_id := "O1", agent_name := "A1",
            decision_point_id := "D1", event_type := "approval_request",
            created_at := "2026-01-12T22:10:15Z",
            payload := .doc (.str "first") })
        = [eventRowOf
          { event_id := "ev1", org_id := "O1", agent_name := "A1",
            decision_point_id := "D1", event_type := "approval_request",
            created_at := "2026-01-12T22:10:15Z",
            payload := .doc (.str "first") }] :=
  insertApprovalEvent_idempotent emptyStore _ _ (by rfl) rfl rfl rfl rfl

/-- Concrete validated log entry used by witness states. -/
def wEntry : LogEntryInput :=
  { instance_id := "i1", service := "svc", level := "info", message := "m",
    username := "u", event_time := "2026-01-12T22:10:15Z",
    created_at := "2026-01-12T22:10:15Z", org_id := none }

/-- A mirror state with four buffered lines and an armed timer. -/
def wMirror4 : DebugMirrorState :=
  { buffer := [("p", "l1\n"), ("p", "l2\n"), ("p", "l3\n"), ("p", "l4\n")],
    deadline := some 2000, writes := [], errorsLogged := [] }

/-- Counterexample to C4 as stated: a threshold-triggered (synchronous)
flush whose file write fails still answers the triggering request with
`{ok: true}` — the error is logged and the batch dropped, but nothing is
reported to the caller, so the error is not reported even when the flush was
synchronous. -/
theorem flush_error_not_reported_cex :
    (handleLogPost true 3000 true (some .writeFailed) wEntry "p" "l5\n"
        emptyStore wMirror4).2.2 = .ok
    ∧ (handleLogPost true 3000 true (some .writeFailed) wEntry "p" "l5\n"
        emptyStore wMirror4).2.1.errorsLogged = [.writeFailed]
    ∧ (handleLogPost true 3000 true (some .writeFailed) wEntry "p" "l5\n"
        emptyStore wMirror4).2.1.writes = []
    ∧ (handleLogPost true 3000 true (some .writeFailed) wEntry "p" "l5\n"
        emptyStore wMirror4).2.1.buffer = [] := by
  decide

/-- C4 (amended). A flush failure during lock acquisition or the file write
is never reported to the caller of the triggering request — synchronous
(threshold-triggered) or not, the handler still responds `{ok: true}`; and
any failed flush (threshold- or timer-triggered, both run `flushLogBuffer`)
discards its batch without retry: the buffer and timer are cleared, no file
write happens, and the error is only logged. -/
theorem flush_errors_swallowed (t : Nat) (io : Option FlushErr)
    (entry : LogEntryInput) (p l : String) (st : Store)
    (ms : DebugMirrorState) :
    (handleLogPost true t true io entry p l st ms).2.2 = .ok
    ∧ (∀ err s, s.buffer ≠ [] →
        flushLogBuffer true (some err) s
          = { s with
              buffer := []
              deadline := none
              errorsLogged := s.errorsLogged ++ [err] }) := by
  constructor
  · simp [handleLogPost]
  · intro err s hs
    unfold flushLogBuffer
    simp only [Bool.not_true]
    cases hb : s.buffer with
    | nil => exact absurd hb hs
    | cons e es => rfl

/-- Witness for C4 (amended): a concrete failing synchronous flush and a
concrete failing timer flush, both swallowed with the batch dropped. -/
theorem flush_errors_swallowed_witness :
    (handleLogPost true 3000 true (some .lockFailed) wEntry "p" "l\n"
        emptyStore
        { buffer := [], deadline := none, writes := [],
          errorsLogged := [] }).2.2 = .ok
    ∧ flushLogBuffer true (some .lockFailed)
        { buffer := [("p", "x\n")], deadline := some 7, writes := [],
          errorsLogged := [] }
      = { buffer := [], deadline := none, writes := [],
          errorsLogged := [.lockFailed] } :=
  ⟨(flush_errors_swallowed 3000 (some .lockFailed) wEntry "p" "l\n" emptyStore
      { buffer := [], deadline := none, writes := [], errorsLogged := [] }).1,
   (flush_errors_swallowed 3000 (some .lockFailed) wEntry "p" "l\n" emptyStore
      { buffer := [], deadline := none, writes := [], errorsLogged := [] }).2
      .lockFailed
      { buffer := [("p", "x\n")], deadline := some 7, writes := [],
        errorsLogged := [] }
      (by decide)⟩

/-- Counterexample to C5 as stated: in the Armed state (one buffered line,
timer deadline 1000), buffering a second line at t = 500 — far below the
size threshold — changes the pending deadline (to 1500): the source clears
the existing timer and starts a fresh one on every sub-threshold arrival. -/
theorem timer_reset_on_arrival_cex :
    (bufferDebugLine 500 none ("p", "b\n")
        { buffer := [("p", "a\n")], deadline := some 1000, writes := [],
          errorsLogged := [] }).deadline
      ≠ ({ buffer := [("p", "a\n")], deadline := some 1000, writes := [],
           errorsLogged := [] } : DebugMirrorState).deadline := by
  decide

/-- C5 (amended). While the engine is Armed, buffering an additional line
that does not bring the buffer to the size threshold resets the pending
timer: the previous timer is cleared and the new deadline is the arrival
instant plus the full 1000 ms delay, whatever the old deadline was. -/
theorem timer_reset_on_arrival (t : Nat) (io : Option FlushErr)
    (entry : String × String) (s : DebugMirrorState)
    (hlen : s.buffer.length + 1 < MAX_BUFFER_SIZE) :
    (bufferDebugLine t io entry s).deadline = some (t + DEBOUNCE_DELAY) := by
  unfold bufferDebugLine
  rw [if_neg (by rw [List.length_append, List.length_singleton]; omega)]

/-- Witness for C5 (amended): the concrete Armed state of the
counterexample gets deadline 500 + 1000 = 1500. -/
theorem timer_reset_on_arrival_witness :
    (bufferDebugLine 500 none ("p", "b\n")
        { buffer := [("p", "a\n")], deadline := some 1000, writes := [],
          errorsLogged := [] }).deadline = some 1500 :=
  timer_reset_on_arrival 500 none ("p", "b\n")
    { buffer := [("p", "a\n")], deadline := some 1000, writes := [],
      errorsLogged := [] } (by decide)

/-- C6. Batch trigger boundary: starting from an empty buffer, buffering
exactly 5 lines with no intervening timer firing triggers an immediate
(synchronous, threshold-triggered) flush of exactly those 5 lines, leaving
the buffer empty and the timer disarmed; buffering only 4 lines triggers no
flush on its own, and the timer expiring after the 1000 ms delay produces
exactly one flush containing exactly those 4 lines. -/
theorem batch_trigger_boundary
    (p l1 l2 l3 l4 l5 : String) (t1 t2 t3 t4 t5 : Nat) (s : DebugMirrorState)
    (hbuf : s.buffer = []) :
    (bufferDebugLine t5 none (p, l5) (bufferDebugLine t4 none (p, l4)
        (bufferDebugLine t3 none (p, l3) (bufferDebugLine t2 none (p, l2)
          (bufferDebugLine t1 none (p, l1) s))))).writes
        = s.writes ++ [(p, String.join [l1, l2, l3, l4, l5])]
    ∧ (bufferDebugLine t5 none (p, l5) (bufferDebugLine t4 none (p, l4)
        (bufferDebugLine t3 none (p, l3) (bufferDebugLine t2 none (p, l2)
          (bufferDebugLine t1 none (p, l1) s))))).buffer = []
    ∧ (bufferDebugLine t5 none (p, l5) (bufferDebugLine t4 none (p, l4)
        (bufferDebugLine t3 none (p, l3) (bufferDebugLine t2 none (p, l2)
          (bufferDebugLine t1 none (p, l1) s))))).deadline = none
    ∧ (bufferDebugLine t4 none (p, l4)
        (bufferDebugLine t3 none (p, l3) (bufferDebugLine t2 none (p, l2)
          (bufferDebugLine t1 none (p, l1) s)))).writes = s.writes
    ∧ (fireTimer none (bufferDebugLine t4 none (p, l4)
        (bufferDebugLine t3 none (p, l3) (bufferDebugLine t2 none (p, l2)
          (bufferDebugLine t1 none (p, l1) s))))).writes
        = s.writes ++ [(p, String.join [l1, l2, l3, l4])]
    ∧ (fireTimer none (bufferDebugLine t4 none (p, l4)
        (bufferDebugLine t3 none (p, l3) (bufferDebugLine t2 none (p, l2)
          (bufferDebugLine t1 none (p, l1) s))))).buffer = []
    ∧ (fireTimer none (bufferDebugLine t4 none (p, l4)
        (bufferDebugLine t3 none (p, l3) (bufferDebugLine t2 none (p, l2)
          (bufferDebugLine t1 none (p, l1) s))))).deadline = none := by
  refine ⟨?_, ?_, ?_, ?_, ?_, ?_, ?_⟩ <;>
    simp [bufferDebugLine, flushLogBuffer, fireTimer, hbuf,
      MAX_BUFFER_SIZE, DEBOUNCE_DELAY, String.join]

/-- Witness for C6: the concrete five-line and four-line runs from the
fresh mirror state. -/
theorem batch_trigger_boundary_witness :
    (bufferDebugLine 5 none ("p", "e\n") (bufferDebugLine 4 none ("p", "d\n")
        (bufferDebugLine 3 none ("p", "c\n") (bufferDebugLine 2 none ("p", "b\n")
          (bufferDebugLine 1 none ("p", "a\n")
            { buffer := [], deadline := none, writes := [],
              errorsLogged := [] }))))).writes
      = [("p", String.join ["a\n", "b\n", "c\n", "d\n", "e\n"])]
    ∧ (fireTimer none (bufferDebugLine 4 none ("p", "d\n")
        (bufferDebugLine 3 none ("p", "c\n") (bufferDebugLine 2 none ("p", "b\n")
          (bufferDebugLine 1 none ("p", "a\n")
            { buffer := [], deadline := none, writes := [],
              errorsLogged := [] }))))).writes
      = [("p", String.join ["a\n", "b\n", "c\n", "d\n"])] :=
  ⟨(batch_trigger_boundary "p" "a\n" "b\n" "c\n" "d\n" "e\n" 1 2 3 4 5
      { buffer := [], deadline := none, writes := [], errorsLogged := [] }
      rfl).1,
   (batch_trigger_boundary "p" "a\n" "b\n" "c\n" "d\n" "e\n" 1 2 3 4 5
      { buffer := [], deadline := none, writes := [], errorsLogged := [] }
      rfl).2.2.2.2.1⟩

/-- C2. `listLogEntries` returns all stored rows of the instance (a
permutation of the filtered table) in an order sorted by
(`event_time` ascending, insertion sequence `id` ascending) — non-decreasing
in `event_time` with ties broken by insertion order; in particular,
appending an entry with event time T2 and then one with an earlier event
time T1 < T2 lists the T1 entry before the T2 entry. -/
theorem listLogEntries_ordered (s : Store) (iid : String)
    (e1 e2 : LogEntryInput) (h12 : e2.event_time < e1.event_time)
    (hi1 : e1.instance_id = iid) (hi2 : e2.instance_id = iid) :
    List.Perm (listLogEntries iid s)
      (s.logs.filter fun r => r.instance_id == iid)
    ∧ (listLogEntries iid s).Sorted logOrd
    ∧ listLogEntries iid (appendLogEntry e2 (appendLogEntry e1 emptyStore))
        = [logRowOf e2 2, logRowOf e1 1] := by
  have hnot : ¬ logOrd (logRowOf e1 1) (logRowOf e2 2) := by
    intro h
    rcases h with h | ⟨h, _⟩
    · exact absurd h (lt_asymm h12)
    · exact absurd h.symm (ne_of_lt h12)
  refine ⟨List.perm_insertionSort logOrd _, List.sorted_insertionSort logOrd _, ?_⟩
  show List.insertionSort logOrd
      ([logRowOf e1 1, logRowOf e2 2].filter fun r => r.instance_id == iid) = _
  have f1 : ((logRowOf e1 1).instance_id == iid) = true := by
    simp [logRowOf, hi1]
  have f2 : ((logRowOf e2 2).instance_id == iid) = true := by
    simp [logRowOf, hi2]
  rw [show List.filter (fun r => r.instance_id == iid)
        [logRowOf e1 1, logRowOf e2 2] = [logRowOf e1 1, logRowOf e2 2] from by
      simp [List.filter_cons, f1, f2]]
  show List.orderedInsert logOrd (logRowOf e1 1)
      (List.orderedInsert logOrd (logRowOf e2 2) []) = _
  rw [List.orderedInsert, List.orderedInsert, if_neg hnot, List.orderedInsert]

/-- Entry appended first in the C2 witness scenario (later event time). -/
def wE1 : LogEntryInput :=
  { instance_id := "i1", service := "svc", level := "info",
    message := "state - active", username := "u",
    event_time := "2026-01-12T22:10:15Z",
    created_at := "2026-01-12T22:10:15Z", org_id := none }

/-- Entry appended second in the C2 witness scenario (earlier event time). -/
def wE2 : LogEntryInput :=
  { instance_id := "i1", service := "svc", level := "info",
    message := "state - pending", username := "u",
    event_time := "2026-01-12T22:10:10Z",
    created_at := "2026-01-12T22:10:16Z", org_id := none }

/-- Witness for C2: appending the `22:10:15` entry and then the `22:10:10`
entry lists the earlier-timestamped entry first. -/
theorem listLogEntries_ordered_witness :
    List.Perm (listLogEntries "i1" emptyStore)
      (emptyStore.logs.filter fun r => r.instance_id == "i1")
    ∧ (listLogEntries "i1" emptyStore).Sorted logOrd
    ∧ listLogEntries "i1" (appendLogEntry wE2 (appendLogEntry wE1 emptyStore))
        = [logRowOf wE2 2, logRowOf wE1 1] :=
  listLogEntries_ordered emptyStore "i1" wE1 wE2
    (String.lt_iff_toList_lt.mpr (by decide)) rfl rfl

/-- C7. Payload round-trip: inserting an `approval_request` event carrying a
structured (JSON-representable) payload into a store with no conflicting
row, then reading it back via `getApprovalRequestByDecisionPoint` for the
same (org, agent, decision point), yields exactly the original document. -/
theorem payload_roundtrip (s : Store) (e : ApprovalEventInput) (j : Json)
    (hty : e.event_type = "approval_request")
    (hp : e.payload = PayloadSource.doc j)
    (hfresh : insertConflict s e = false) :
    getApprovalRequestByDecisionPoint e.org_id e.agent_name
      e.decision_point_id (insertApprovalEvent e s).1 = some j := by
  have hnokey : ∀ r ∈ s.events, idemKeyEq r e = false := by
    intro r hr
    unfold insertConflict at hfresh
    rw [List.any_eq_false] at hfresh
    have := hfresh r hr
    simp only [Bool.or_eq_true, not_or] at this
    exact Bool.eq_false_iff.mpr this.2
  rw [insertApprovalEvent_of_fresh s e hfresh]
  unfold getApprovalRequestByDecisionPoint
  have hfilter : (s.events ++ [eventRowOf e]).filter
      (requestMatches e.org_id e.agent_name e.decision_point_id)
      = [eventRowOf e] := by
    rw [List.filter_append]
    have h1 : s.events.filter
        (requestMatches e.org_id e.agent_name e.decision_point_id) = [] := by
      rw [List.filter_eq_nil_iff]
      intro r hr hm
      have : idemKeyEq r e = true := by
        unfold requestMatches at hm
        unfold idemKeyEq
        rw [hty]
        exact hm
      rw [hnokey r hr] at this
      exact Bool.false_ne_true this
    have h2 : requestMatches e.org_id e.agent_name e.decision_point_id
        (eventRowOf e) = true := by
      simp [requestMatches, eventRowOf, hty]
    rw [h1, List.nil_append, List.filter_cons_of_pos h2, List.filter_nil]
  rw [hfilter]
  show parsePayload (eventRowOf e).payload_json = some j
  show parsePayload (serializePayload e.payload) = some j
  rw [hp]
  rfl

/-- Witness for C7: a concrete structured payload inserted into the empty
store reads back deep-equal. -/
theorem payload_roundtrip_witness :
    getApprovalRequestByDecisionPoint "O1" "A1" "D1"
      (insertApprovalEvent
        { event_id := "ev1", org_id := "O1", agent_name := "A1",
          decision_point_id := "D1", event_type := "approval_request",
          created_at := "2026-01-12T22:10:15Z",
          payload := .doc (.obj [("k", .num 7), ("s", .str "v")]) }
        emptyStore).1
      = some (.obj [("k", .num 7), ("s", .str "v")]) :=
  payload_roundtrip emptyStore
    { event_id := "ev1", org_id := "O1", agent_name := "A1",
      decision_point_id := "D1", event_type := "approval_request",
      created_at := "2026-01-12T22:10:15Z",
      payload := .doc (.obj [("k", .num 7), ("s", .str "v")]) }
    (.obj [("k", .num 7), ("s", .str "v")]) rfl rfl rfl

/-- C8. `getApprovalRequestByDecisionPoint` returns the payload of the
single earliest (by `created_at`) `approval_request` event for the decision
point; it returns none when no such event exists; and when the earliest
matching row's stored payload is malformed it returns none rather than
raising (the read is a total function), so one corrupt row never blocks the
read. -/
theorem getApprovalRequest_earliest (s : Store) (org agent dp : String) :
    (s.events.filter (requestMatches org agent dp) = [] →
      getApprovalRequestByDecisionPoint org agent dp s = none)
    ∧ (∀ r ∈ s.events.filter (requestMatches org agent dp),
        (∀ r' ∈ s.events.filter (requestMatches org agent dp),
          r' = r ∨ r.created_at < r'.created_at) →
        getApprovalRequestByDecisionPoint org agent dp s
          = parsePayload r.payload_json)
    ∧ (∀ r ∈ s.events.filter (requestMatches org agent dp),
        (∀ r' ∈ s.events.filter (requestMatches org agent dp),
          r' = r ∨ r.created_at < r'.created_at) →
        ∀ t, r.payload_json = PayloadText.malformed t →
        getApprovalRequestByDecisionPoint org agent dp s = none) := by
  have main : ∀ r ∈ s.events.filter (requestMatches org agent dp),
      (∀ r' ∈ s.events.filter (requestMatches org agent dp),
        r' = r ∨ r.created_at < r'.created_at) →
      getApprovalRequestByDecisionPoint org agent dp s
        = parsePayload r.payload_json := by
    intro r hr hmin
    have hperm := List.perm_insertionSort createdOrd
      (s.events.filter (requestMatches org agent dp))
    have hsorted := List.sorted_insertionSort createdOrd
      (s.events.filter (requestMatches org agent dp))
    have hrmem : r ∈ List.insertionSort createdOrd
        (s.events.filter (requestMatches org agent dp)) :=
      hperm.mem_iff.mpr hr
    unfold getApprovalRequestByDecisionPoint
    cases hsl : List.insertionSort createdOrd
        (s.events.filter (requestMatches org agent dp)) with
    | nil => rw [hsl] at hrmem; exact absurd hrmem (List.not_mem_nil r)
    | cons r0 tl =>
      rw [hsl] at hperm hsorted hrmem
      have hr0 : r0 ∈ s.events.filter (requestMatches org agent dp) :=
        hperm.mem_iff.mp (List.mem_cons_self r0 tl)
      have : parsePayload r0.payload_json = parsePayload r.payload_json := by
        rcases List.mem_cons.mp hrmem with h | h
        · rw [h]
        · rcases hmin r0 hr0 with h0 | h0
          · rw [h0]
          · have hle : createdOrd r0 r := (List.sorted_cons.mp hsorted).1 r h
            exact absurd h0 (not_lt_of_le hle)
      simpa using this
  refine ⟨?_, main, ?_⟩
  · intro h
    unfold getApprovalRequestByDecisionPoint
    rw [h]
    rfl
  · intro r hr hmin t ht
    rw [main r hr hmin, ht]
    rfl

/-- The corrupt-payload row used by the C8 witness. -/
def wRowMal : EventRow :=
  { event_id := "ev1", org_id := "O1", agent_name := "A1",
    decision_point_id := "D1", event_type := "approval_request",
    created_at := "2026-01-12T22:10:15Z", sim_run_id := none,
    payload_json := .malformed "not-json" }

/-- A store holding only the corrupt-payload row. -/
def wStoreMal : Store := { emptyStore with events := [wRowMal] }

/-- Witness for C8: a store whose only matching row has a malformed payload
returns none for that decision point, and none for an empty decision
point. -/
theorem getApprovalRequest_earliest_witness :
    getApprovalRequestByDecisionPoint "O1" "A1" "D1" wStoreMal = none
    ∧ getApprovalRequestByDecisionPoint "O1" "A1" "D2" wStoreMal = none := by
  have hmem : wRowMal ∈ wStoreMal.events.filter (requestMatches "O1" "A1" "D1") := by
    simp [wStoreMal, wRowMal, requestMatches, emptyStore]
  have hmin : ∀ r' ∈ wStoreMal.events.filter (requestMatches "O1" "A1" "D1"),
      r' = wRowMal ∨ wRowMal.created_at < r'.created_at := by
    intro r' hr'
    left
    simpa [wStoreMal, wRowMal, requestMatches, emptyStore] using hr'
  refine ⟨(getApprovalRequest_earliest wStoreMal "O1" "A1" "D1").2.2 wRowMal
      hmem hmin "not-json" rfl,
    (getApprovalRequest_earliest wStoreMal "O1" "A1" "D2").1 ?_⟩
  simp [wStoreMal, wRowMal, requestMatches, emptyStore]

/-- C3. `queryApprovalEvents` returns exactly the stored rows satisfying all
supplied predicates (a permutation of the filtered table), ordered by
(`created_at` ascending, `event_id` ascending); supplying `limit`/`offset`
yields the order-preserving slice of the unpaginated result starting at the
offset; pages of size L at offsets 0, L, 2L, … concatenate to the
unpaginated result; and (with distinct primary keys) distinct pages are
disjoint. -/
theorem queryApprovalEvents_spec (s : Store) (q : ApprovalQuery) :
    List.Perm (queryApprovalEventsAll q s) (s.events.filter (matchesQuery q))
    ∧ (queryApprovalEventsAll q s).Sorted evOrd
    ∧ (∀ L m, queryApprovalEvents { q with limit := some L, offset := some m } s
        = ((queryApprovalEventsAll q s).drop m).take L)
    ∧ (∀ L K, ((List.range K).map fun k =>
        queryApprovalEvents { q with limit := some L, offset := some (k * L) } s).flatten
        = (queryApprovalEventsAll q s).take (K * L))
    ∧ ((s.events.map EventRow.event_id).Nodup →
        ∀ L k k', k < k' →
        List.Disjoint
          (queryApprovalEvents { q with limit := some L, offset := some (k * L) } s)
          (queryApprovalEvents { q with limit := some L, offset := some (k' * L) } s)) := by
  have hall : queryApprovalEventsAll q s
      = List.insertionSort evOrd (s.events.filter (matchesQuery q)) := rfl
  have hpage : ∀ L m,
      queryApprovalEvents { q with limit := some L, offset := some m } s
        = ((queryApprovalEventsAll q s).drop m).take L := by
    intro L m
    have hq : queryApprovalEvents { q with limit := some L, offset := some m } s
        = (if 0 < m
            then ((List.insertionSort evOrd (s.events.filter (matchesQuery q))).drop m).take L
            else (List.insertionSort evOrd (s.events.filter (matchesQuery q))).take L) := rfl
    rw [hq, hall]
    by_cases hm : 0 < m
    · rw [if_pos hm]
    · rw [if_neg hm, Nat.eq_zero_of_not_pos hm, List.drop_zero]
  have hconcat : ∀ L K, ((List.range K).map fun k =>
      queryApprovalEvents { q with limit := some L, offset := some (k * L) } s).flatten
      = (queryApprovalEventsAll q s).take (K * L) := by
    intro L K
    induction K with
    | zero => simp
    | succ K ih =>
      rw [show List.range (K + 1) = List.range K ++ [K] from by
            simp [List.range_succ],
        List.map_append, List.flatten_append, List.map_cons, List.map_nil,
        List.flatten_cons, List.flatten_nil, List.append_nil, ih, hpage L (K * L),
        show (K + 1) * L = K * L + L from by ring, List.take_add]
  refine ⟨by rw [hall]; exact List.perm_insertionSort evOrd _,
    by rw [hall]; exact List.sorted_insertionSort evOrd _, hpage, hconcat, ?_⟩
  intro hnd L k k' hkk
  have hnodup : (queryApprovalEventsAll q s).Nodup := by
    rw [hall]
    exact (List.perm_insertionSort evOrd
      (s.events.filter (matchesQuery q))).symm.nodup
      ((List.Nodup.of_map EventRow.event_id hnd).filter (matchesQuery q))
  rw [hpage L (k * L), hpage L (k' * L)]
  have hle : k * L + L ≤ k' * L := by
    have h1 : k + 1 ≤ k' := Nat.succ_le_of_lt hkk
    calc k * L + L = (k + 1) * L := by ring
      _ ≤ k' * L := Nat.mul_le_mul_right L h1
  have hslice : ((queryApprovalEventsAll q s).drop (k * L)).take L
      = ((queryApprovalEventsAll q s).take (k * L + L)).drop (k * L) := by
    rw [List.drop_take]
    simp
  rw [hslice]
  exact List.disjoint_of_subset_left (List.drop_subset _ _)
    (List.disjoint_of_subset_right (List.take_subset _ _)
      (List.disjoint_take_drop hnodup hle))

/-- A matching `approval_request` row for the C3 witness store. -/
def wQa : EventRow :=
  { event_id := "a", org_id := "O1", agent_name := "A1",
    decision_point_id := "D1", event_type := "approval_request",
    created_at := "2026-01-01T00:00:00Z", sim_run_id := none,
    payload_json := .parsesTo .null }

/-- A second matching row with a distinct key. -/
def wQb : EventRow :=
  { wQa with
      event_id := "b"
      decision_point_id := "D2"
      created_at := "2026-01-02T00:00:00Z" }

/-- A row excluded by the org filter. -/
def wQx : EventRow := { wQa with event_id := "x", org_id := "O2" }

/-- The C3 witness store. -/
def wStoreQ : Store := { emptyStore with events := [wQa, wQb, wQx] }

/-- The C3 witness filter: org+agent+event_type, no time range, no
sim-run. -/
def wQuery : ApprovalQuery :=
  { orgId := "O1", agentName := "A1", eventType := some "approval_request",
    simRunId := none, start := none, endAt := none,
    limit := none, offset := none }

/-- A store where the witness filter matches exactly one row. -/
def wStoreOne : Store := { emptyStore with events := [wQa, wQx] }

/-- Witness for C3: concrete page-slice and page-disjointness facts from the
theorem, plus a concrete evaluation of the unpaginated query. -/
theorem queryApprovalEvents_spec_witness :
    queryApprovalEvents { wQuery with limit := some 1, offset := some 0 } wStoreQ
      = ((queryApprovalEventsAll wQuery wStoreQ).drop 0).take 1
    ∧ List.Disjoint
        (queryApprovalEvents
          { wQuery with limit := some 1, offset := some (0 * 1) } wStoreQ)
        (queryApprovalEvents
          { wQuery with limit := some 1, offset := some (1 * 1) } wStoreQ)
    ∧ queryApprovalEventsAll wQuery wStoreOne = [wQa] :=
  ⟨(queryApprovalEvents_spec wStoreQ wQuery).2.2.1 1 0,
   (queryApprovalEvents_spec wStoreQ wQuery).2.2.2.2 (by decide) 1 0 1
     (by decide),
   rfl⟩

end AgentLog
